import Mathlib

/-!
Shallow embedding of the real-time log telemetry client of the
tinyproxy-monitor frontend (the `Logs` page and its helpers), together
with theorems settling the behavioural claims about it.

The JavaScript source is translated function by function:
* JS objects become structures, JS arrays become `List`.
* `Date.now()` is passed in explicitly as a `now : Nat` parameter.
* JS truthiness is made explicit: a `Nat` is falsy iff it is `0`
  (`jsOrNat`), a `String` is falsy iff it is empty, an absent object
  field is `Option.none`.
* The React `useState` cells of the component become the fields of
  `ClientState`; each event handler is a pure function on that state.
* React closure capture is modelled explicitly.  `connectWebSocket` is a
  `useCallback` whose body installs `ws.onopen`, `ws.onmessage` and
  `ws.onclose` once, at socket creation; those handlers read the
  `isPaused`, `filters` and `connectionAttempts` bindings of the render
  that created that `connectWebSocket` instance, not the current
  component state.  These captured bindings are the `CapturedEnv`
  argument of the handler functions below.  Only the functional state
  updaters (such as the `setLogs` updater, which receives the fresh
  previous buffer) operate on current state.  The retry timer set in
  `ws.onclose` calls the `connectWebSocket` binding the handler closed
  over — the same instance — so every socket of an automatic retry
  chain is created with the same `CapturedEnv`.
-/

namespace TPM

/-- A log record as kept in the `logs` buffer.  The client assigns `id`
itself at ingestion; `timestamp` is modelled as a natural instant. -/
structure Record where
  id : String
  timestamp : Nat
  level : String
  message : Option String
  deriving DecidableEq, Repr

/-- The `filters` state object, with fields `level`, `search`, `realtime`. -/
structure Filters where
  level : String
  search : String
  realtime : Bool
  deriving DecidableEq, Repr

/-- MAX_LOGS = 1000. -/
def MAX_LOGS : Nat := 1000

/-- MAX_RECONNECT_ATTEMPTS = 5. -/
def MAX_RECONNECT_ATTEMPTS : Nat := 5

/-- RECONNECT_DELAYS = [1000, 2000, 4000, 8000, 16000]. -/
def RECONNECT_DELAYS : List Nat := [1000, 2000, 4000, 8000, 16000]

/-- The LOG_LEVEL_PRIORITY lookup table; a key miss is `none`
(JS `undefined`). -/
def LOG_LEVEL_PRIORITY : String → Option Nat
  | "CRITICAL" => some 0
  | "ERROR" => some 1
  | "WARNING" => some 2
  | "NOTICE" => some 3
  | "CONNECT" => some 4
  | "INFO" => some 5
  | _ => none

/-- JS `x || d` for a numeric lookup result: both `undefined` and `0`
are falsy, so the default `d` is returned for both. -/
def jsOrNat : Option Nat → Nat → Nat
  | none, d => d
  | some v, d => if v = 0 then d else v

/-- JS `String.prototype.includes` on character lists. -/
def containsSub (needle : List Char) : List Char → Bool
  | [] => needle.isEmpty
  | c :: rest => needle.isPrefixOf (c :: rest) || containsSub needle rest

/-- JS `s.includes(sub)`. -/
def strIncludes (s sub : String) : Bool :=
  containsSub sub.data s.data

/-- The `filterLogs` callback: level filtering via LOG_LEVEL_PRIORITY
with the `|| 5` default, then case-insensitive substring search on the
(optional) message.  An empty `level` or `search` string is falsy, so
that stage is skipped. -/
def filterLogs (logsToFilter : List Record) (currentFilters : Filters) :
    List Record :=
  let filtered := logsToFilter
  let filtered :=
    if currentFilters.level ≠ "" then
      let minPriority := jsOrNat (LOG_LEVEL_PRIORITY currentFilters.level) 5
      filtered.filter (fun log =>
        jsOrNat (LOG_LEVEL_PRIORITY log.level) 5 ≤ minPriority)
    else filtered
  if currentFilters.search ≠ "" then
    let searchLower := currentFilters.search.toLower
    filtered.filter (fun log =>
      match log.message with
      | none => false
      | some m => strIncludes m.toLower searchLower)
  else filtered

/-- JS `arr.slice(-n)`: the suffix of the last `n` elements. -/
def takeLast (n : Nat) (l : List α) : List α :=
  l.drop (l.length - n)

/-- The `setLogs` functional updater of the realtime case:
`[...prevLogs, ...newLogs].slice(-MAX_LOGS)`. -/
def appendLogs (prevLogs newLogs : List Record) : List Record :=
  takeLast MAX_LOGS (prevLogs ++ newLogs)

/-- Messages the client sends over the WebSocket (`ws.send(JSON.stringify ...)`).
`subscribe` carries `level`/`search` (sent from `ws.onopen`); `subscribeBare`
and `unsubscribe` are the field-less frames sent on a realtime-mode toggle;
`ping` is both the heartbeat probe and the reply to a server ping. -/
inductive OutMsg where
  | subscribe (level search : String)
  | updateFilter (level search : String)
  | subscribeBare
  | unsubscribe
  | ping
  deriving DecidableEq, Repr

/-- A parsed server frame (`message` after `JSON.parse`), by its `type`
tag.  In the realtime case `message.logs || []` makes an absent list
empty, so it is a plain list; in the data case `if (message.logs)`
distinguishes an absent list, so it is an `Option`. -/
inductive ServerMsg where
  | realtime (logs : List Record)
  | data (logs : Option (List Record))
  | info (message : String)
  | error (message : String)
  | ping
  | unknown (type : String)
  deriving DecidableEq, Repr

/-- A raw incoming frame: either unparseable JSON (the `JSON.parse` call
throws and the catch block only logs) or a parsed message. -/
inductive Frame where
  | malformed
  | parsed (m : ServerMsg)
  deriving DecidableEq, Repr

/-- The `useState` cells of the `Logs` component relevant to the claims,
plus the trace `sent` of messages written to the socket. -/
structure ClientState where
  logs : List Record
  filteredLogs : List Record
  isConnected : Bool
  isReconnecting : Bool
  connectionAttempts : Nat
  isPaused : Bool
  filters : Filters
  error : Option String
  sent : List OutMsg
  deriving DecidableEq, Repr

/-- The component's initial state (the `useState` initialisers). -/
def initialState : ClientState :=
  { logs := []
    filteredLogs := []
    isConnected := false
    isReconnecting := false
    connectionAttempts := 0
    isPaused := false
    filters := { level := "INFO", search := "", realtime := true }
    error := none
    sent := [] }

/-- The values a `connectWebSocket` instance — and the handlers it
installs, including the `handleWebSocketMessage` instance it captured as
a dependency — closes over: the `isPaused`, `filters` and
`connectionAttempts` of the render that created the instance.
`ws.onopen`, `ws.onmessage` and `ws.onclose` are assigned once, at
socket creation, and never reassigned, so they read these captured
values rather than the current component state; and the retry timer set
in `ws.onclose` invokes the very `connectWebSocket` binding it closed
over, so all sockets of an automatic retry chain share one capture. -/
structure CapturedEnv where
  isPaused : Bool
  filters : Filters
  connectionAttempts : Nat
  deriving DecidableEq, Repr

/-- The capture made by the `connectWebSocket` and handler instances of
the render that displays state `st`. -/
def renderEnv (st : ClientState) : CapturedEnv :=
  { isPaused := st.isPaused
    filters := st.filters
    connectionAttempts := st.connectionAttempts }

/-- Client-side id assignment of the realtime and data cases: the id
template is the prefix (`rt-` or `data-`) followed by `Date.now()` and
the index, applied by spreading each incoming log and overriding `id`. -/
def withIds (pre : String) (now : Nat) (logs : List Record) : List Record :=
  logs.enum.map (fun p => { p.2 with id := pre ++ toString now ++ "-" ++ toString p.1 })

/-- Id assignment of `fetchInitialLogs`: the template `initial-` followed
by the index and `Date.now()`. -/
def withInitialIds (now : Nat) (logs : List Record) : List Record :=
  logs.enum.map (fun p =>
    { p.2 with id := "initial-" ++ toString p.1 ++ "-" ++ toString now })

/-- The `handleWebSocketMessage` instance installed as `ws.onmessage`,
with `env` the capture of the render that created it.  The surrounding
try/catch makes a parse failure a no-op (it only logs); the switch
dispatches on `message.type`, with the default branch only logging.
The realtime gate reads the captured `isPaused` and `filters.realtime`
(a pause toggled after the socket was created never reaches this
closure), and `filterLogs` runs on the captured `filters`; only the
functional `setLogs` updater sees the fresh previous buffer.  The ping
reply is guarded by the socket being open
(`wsRef.current?.readyState === OPEN`, a ref read, always current),
which in this serialized model coincides with `isConnected`. -/
def handleWebSocketMessage (env : CapturedEnv) (now : Nat) (st : ClientState) :
    Frame → ClientState
  | .malformed => st
  | .parsed m =>
    match m with
    | .realtime logs =>
      if !env.isPaused && env.filters.realtime then
        let newLogs := withIds "rt-" now logs
        let trimmed := appendLogs st.logs newLogs
        { st with logs := trimmed, filteredLogs := filterLogs trimmed env.filters }
      else st
    | .data none => st
    | .data (some logs) =>
      let dataLogs := withIds "data-" now logs
      { st with logs := dataLogs, filteredLogs := filterLogs dataLogs env.filters }
    | .info _ => st
    | .error msg => { st with error := some msg }
    | .ping =>
      if st.isConnected then { st with sent := st.sent ++ [OutMsg.ping] } else st
    | .unknown _ => st

/-- The `ws.onopen` handler of a socket created with capture `env`:
marks the connection open, resets the attempt counter (a direct set on
the true state), clears the error and immediately sends the subscribe
frame — carrying the captured `filters.level` and `filters.search` of
the render that created this socket's `connectWebSocket` instance, not
the current filter state. -/
def wsOnOpen (env : CapturedEnv) (st : ClientState) : ClientState :=
  { st with
      isConnected := true
      isReconnecting := false
      error := none
      connectionAttempts := 0
      sent := st.sent ++ [OutMsg.subscribe env.filters.level env.filters.search] }

/-- The `ws.onclose` handler of a socket created with capture `env`.
Returns the new state together with the backoff delay passed to
`setTimeout` when a retry is scheduled (`none` when no timer is set).
Both the attempt-cap guards and the delay index read the captured
`connectionAttempts` — constant across an automatic retry chain, since
the chain reuses the capturing instance — while the increment is the
functional updater `prev => prev + 1` on the true state. -/
def wsOnClose (env : CapturedEnv) (st : ClientState) (wasClean : Bool) :
    ClientState × Option Nat :=
  let st := { st with isConnected := false }
  if !wasClean && env.connectionAttempts < MAX_RECONNECT_ATTEMPTS then
    let delay :=
      RECONNECT_DELAYS.getD (min env.connectionAttempts (RECONNECT_DELAYS.length - 1)) 0
    ({ st with connectionAttempts := st.connectionAttempts + 1 }, some delay)
  else if env.connectionAttempts ≥ MAX_RECONNECT_ATTEMPTS then
    ({ st with error := some "Failed to reconnect after multiple attempts",
               isReconnecting := false }, none)
  else
    (st, none)

/-- The `handleFilterChange` callback: stores the new filters, refilters
the buffer locally, and — only when the socket is open — sends an
`update_filter` frame, plus a bare subscribe/unsubscribe when the
realtime flag flipped.  While not open nothing is sent.  The UI invokes
the instance of the latest render, whose captured `logs` and `filters`
coincide with the current state, so it is modelled as reading `st`. -/
def handleFilterChange (st : ClientState) (newFilters : Filters) : ClientState :=
  let st1 := { st with
                 filters := newFilters
                 filteredLogs := filterLogs st.logs newFilters }
  if st.isConnected then
    let st2 := { st1 with
                   sent := st1.sent ++
                     [OutMsg.updateFilter newFilters.level newFilters.search] }
    if newFilters.realtime ≠ st.filters.realtime then
      if newFilters.realtime then
        { st2 with sent := st2.sent ++ [OutMsg.subscribeBare] }
      else
        { st2 with sent := st2.sent ++ [OutMsg.unsubscribe] }
    else st2
  else st1

/-- The `handleReconnect` click handler: resets the attempt counter to 0
on the true state and then calls `connectWebSocket` — the instance of
the render the click happened in, which captured the pre-reset state
(the `setConnectionAttempts(0)` cannot reach that already-created
closure).  Returns the updated state together with the capture of the
socket being created. -/
def handleReconnect (st : ClientState) : ClientState × CapturedEnv :=
  ({ st with connectionAttempts := 0 }, renderEnv st)

/-- The `togglePause` click handler. -/
def togglePause (st : ClientState) : ClientState :=
  { st with isPaused := !st.isPaused }

/-- Successful resolution of the `fetchInitialLogs` request: the fetched
logs get `initial-…` ids and `setLogs(logsWithIds)` replaces the buffer
wholesale (a plain set, not a functional update merging previous state);
the filtered view is recomputed with the `filters` captured by the
mount-effect render that called the fetch, and the error is cleared. -/
def applyInitialLogs (env : CapturedEnv) (now : Nat) (st : ClientState)
    (fetched : List Record) : ClientState :=
  let logsWithIds := withInitialIds now fetched
  { st with
      logs := logsWithIds
      filteredLogs := filterLogs logsWithIds env.filters
      error := none }

/-- An event during the mount window, while the snapshot fetch and the
WebSocket run concurrently: either an incoming frame or the resolution
of the snapshot fetch. -/
inductive MountEvent where
  | wsFrame (now : Nat) (f : Frame)
  | fetchResolved (now : Nat) (logs : List Record)
  deriving DecidableEq, Repr

/-- One step of the mount-window interleaving; both the socket handlers
and the fetch continuation are the closures of the mount render, with
capture `env`. -/
def stepMount (env : CapturedEnv) (st : ClientState) : MountEvent → ClientState
  | .wsFrame now f => handleWebSocketMessage env now st f
  | .fetchResolved now logs => applyInitialLogs env now st logs

/-- The state after a sequence of mount-window events. -/
def runMount (env : CapturedEnv) (st : ClientState) (evs : List MountEvent) :
    ClientState :=
  evs.foldl (stepMount env) st

/-- The delays scheduled by `n` consecutive abnormal closes of an
automatic retry chain (`none` when a close schedules no retry).  All
closes of the chain run `ws.onclose` closures with the same capture
`env`, because the retry timer re-invokes the capturing
`connectWebSocket` instance. -/
def closeDelays (env : CapturedEnv) (st : ClientState) : Nat → List (Option Nat)
  | 0 => []
  | n + 1 =>
    let p := wsOnClose env st false
    p.2 :: closeDelays env p.1 n

/-- The state after `n` consecutive abnormal closes of an automatic
retry chain with capture `env`. -/
def afterCloses (env : CapturedEnv) (st : ClientState) : Nat → ClientState
  | 0 => st
  | n + 1 => afterCloses env (wsOnClose env st false).1 n

/-- Sample record: a CRITICAL line as it arrives from the server. -/
def recCritical : Record :=
  { id := "c1", timestamp := 1, level := "CRITICAL", message := some "disk failure" }

/-- Sample record: a WARNING line. -/
def recWarning : Record :=
  { id := "w1", timestamp := 2, level := "WARNING", message := some "slow response" }

/-- Sample record: an ERROR line. -/
def recError : Record :=
  { id := "e1", timestamp := 3, level := "ERROR", message := some "bad request" }

/-- Filter state with the level threshold set to ERROR and no search. -/
def errorThresholdFilters : Filters :=
  { level := "ERROR", search := "", realtime := true }

/-- Filter state with the level threshold set to CRITICAL and no search. -/
def criticalThresholdFilters : Filters :=
  { level := "CRITICAL", search := "", realtime := true }

/-- Sample snapshot record with timestamp 10. -/
def snapRec : Record :=
  { id := "", timestamp := 10, level := "INFO", message := some "old line" }

/-- Sample live record with timestamp 11 (newer than the snapshot). -/
def liveRec1 : Record :=
  { id := "", timestamp := 11, level := "INFO", message := some "live one" }

/-- Sample live record with timestamp 12 (newer than the snapshot). -/
def liveRec2 : Record :=
  { id := "", timestamp := 12, level := "INFO", message := some "live two" }

/-- Sample filter state used to exercise a filter change while offline. -/
def offlineNewFilters : Filters :=
  { level := "ERROR", search := "timeout", realtime := true }

/-- Sample state rendered with four recorded connection attempts. -/
def stFourFailures : ClientState :=
  { initialState with connectionAttempts := 4 }

/-- Sample state rendered with five recorded connection attempts. -/
def stFiveFailures : ClientState :=
  { initialState with connectionAttempts := 5 }

end TPM

namespace TPM

/-! ### Helper lemmas about the bounded buffer -/

/-- The last-n suffix has length at most n. -/
theorem takeLast_length_le (n : Nat) (l : List α) : (takeLast n l).length ≤ n := by
  simp only [takeLast, List.length_drop]
  omega

/-- Taking the last n elements of an append ignores the left part when
the right part is already long enough. -/
theorem takeLast_append_right (n : Nat) (t c : List α) (h : n ≤ c.length) :
    takeLast n (t ++ c) = takeLast n c := by
  unfold takeLast
  have hlen : (t ++ c).length - n = t.length + (c.length - n) := by
    simp only [List.length_append]
    omega
  rw [hlen, List.drop_append]

/-- Truncating to the last n elements before an append does not change
the last n elements of the whole append. -/
theorem takeLast_idem_append (n : Nat) (a b : List α) :
    takeLast n (takeLast n a ++ b) = takeLast n (a ++ b) := by
  by_cases h : a.length ≤ n
  · have ha : takeLast n a = a := by
      simp [takeLast, Nat.sub_eq_zero_of_le h]
    rw [ha]
  · push_neg at h
    have hlen : (takeLast n a).length = n := by
      simp only [takeLast, List.length_drop]
      omega
    conv_rhs => rw [(List.take_append_drop (a.length - n) a).symm]
    rw [List.append_assoc]
    exact (takeLast_append_right n _ _ (by simp [hlen])).symm

/-- Folding `appendLogs` over a list of batches, starting from a
truncated buffer, yields the last MAX_LOGS of everything. -/
theorem foldl_appendLogs_takeLast (msgs : List (List Record)) (buf : List Record) :
    msgs.foldl appendLogs (takeLast MAX_LOGS buf)
      = takeLast MAX_LOGS (buf ++ msgs.flatten) := by
  induction msgs generalizing buf with
  | nil => simp
  | cons m ms ih =>
    simp only [List.foldl_cons]
    have h1 : appendLogs (takeLast MAX_LOGS buf) m = takeLast MAX_LOGS (buf ++ m) :=
      takeLast_idem_append _ _ _
    rw [h1, ih (buf ++ m)]
    simp [List.append_assoc]

/-! ### Claim theorems -/

/-- C1: with one CRITICAL, one WARNING and one ERROR record buffered and
the level threshold ERROR with empty search, `filterLogs` returns only
the ERROR record — not the CRITICAL and ERROR records the claim expects —
because the priority of CRITICAL is 0, which the JS `|| 5` default
treats as absent, giving CRITICAL records effective priority 5. -/
theorem filterLogs_error_threshold_drops_critical :
    filterLogs [recCritical, recWarning, recError] errorThresholdFilters = [recError] ∧
    jsOrNat (LOG_LEVEL_PRIORITY "CRITICAL") 5 = 5 := by
  decide

/-- C4: level filtering is not monotone in the code: a WARNING record is
visible at the stricter threshold CRITICAL (whose looked-up priority 0
falls back to 5, letting everything through) but disappears when the
threshold is widened to ERROR (priority 1). -/
theorem filterLogs_level_widening_not_monotone :
    LOG_LEVEL_PRIORITY "CRITICAL" = some 0 ∧
    LOG_LEVEL_PRIORITY "ERROR" = some 1 ∧
    filterLogs [recWarning] criticalThresholdFilters = [recWarning] ∧
    filterLogs [recWarning] errorThresholdFilters = [] := by
  decide

/-- C3: for every sequence of realtime append batches, the buffer that
results from folding the `setLogs` updater stays within MAX_LOGS records
and equals exactly the most recent MAX_LOGS appended records in arrival
order (the oldest overflow is discarded first). -/
theorem buffer_append_bounded_and_most_recent (msgs : List (List Record)) :
    (msgs.foldl appendLogs []).length ≤ MAX_LOGS ∧
    msgs.foldl appendLogs [] = takeLast MAX_LOGS msgs.flatten := by
  have h := foldl_appendLogs_takeLast msgs []
  simp only [takeLast, List.drop_nil, List.length_nil, Nat.zero_sub, List.nil_append] at h
  constructor
  · rw [show msgs.foldl appendLogs [] = takeLast MAX_LOGS msgs.flatten from h]
    exact takeLast_length_le _ _
  · exact h

/-- C2: the backoff does not escalate in the code.  Every `ws.onclose`
of an automatic retry chain reads the `connectionAttempts` captured at
the chain-creating render — 0 for a chain rooted in the mount connect —
so for any chain length n every close schedules 1000 ms, the terminal
error branch is unreachable (the error cell is never written), while
the true counter shown in the UI keeps growing by 1 per close. -/
theorem retry_chain_constant_delay (env : CapturedEnv) (st : ClientState)
    (n : Nat) (h : env.connectionAttempts = 0) :
    closeDelays env st n = List.replicate n (some 1000) ∧
    (afterCloses env st n).error = st.error ∧
    (afterCloses env st n).connectionAttempts = st.connectionAttempts + n := by
  induction n generalizing st with
  | zero => exact ⟨rfl, rfl, rfl⟩
  | succ k ih =>
    have hsnd : (wsOnClose env st false).2 = some 1000 := by
      simp [wsOnClose, h, MAX_RECONNECT_ATTEMPTS, RECONNECT_DELAYS]
    have herr : (wsOnClose env st false).1.error = st.error := by
      simp [wsOnClose, h, MAX_RECONNECT_ATTEMPTS]
    have hcnt : (wsOnClose env st false).1.connectionAttempts
        = st.connectionAttempts + 1 := by
      simp [wsOnClose, h, MAX_RECONNECT_ATTEMPTS]
    refine ⟨?_, ?_, ?_⟩
    · simp only [closeDelays]
      rw [(ih (wsOnClose env st false).1).1, hsnd]
      rfl
    · simp only [afterCloses]
      rw [(ih (wsOnClose env st false).1).2.1, herr]
    · simp only [afterCloses]
      rw [(ih (wsOnClose env st false).1).2.2, hcnt]
      omega

/-- C2 witness: the constant-delay chain evaluated for six abnormal
closes of the mount-rooted chain, whose capture has counter 0. -/
theorem retry_chain_constant_delay_witness :
    (renderEnv initialState).connectionAttempts = 0 ∧
    (closeDelays (renderEnv initialState) initialState 6
        = List.replicate 6 (some 1000) ∧
     (afterCloses (renderEnv initialState) initialState 6).error
        = initialState.error ∧
     (afterCloses (renderEnv initialState) initialState 6).connectionAttempts
        = initialState.connectionAttempts + 6) :=
  ⟨rfl, retry_chain_constant_delay (renderEnv initialState) initialState 6 rfl⟩

/-- C7: the reset does not reach the next close.  A manual reconnect
sets the true counter to 0, but the socket it creates installs an
`onclose` that captured the pre-reset counter: clicked at rendered
counter 4, the next abnormal close after the successful open schedules
16000 ms, and clicked at rendered counter 5 it schedules nothing at all
(terminal branch) — never the 1000 ms the claim asserts. -/
theorem manual_reconnect_stale_counter :
    (handleReconnect stFourFailures).1.connectionAttempts = 0 ∧
    (handleReconnect stFourFailures).2.connectionAttempts = 4 ∧
    (wsOnClose (handleReconnect stFourFailures).2
        (wsOnOpen (handleReconnect stFourFailures).2
          (handleReconnect stFourFailures).1) false).2
      = some 16000 ∧
    (wsOnClose (handleReconnect stFiveFailures).2
        (wsOnOpen (handleReconnect stFiveFailures).2
          (handleReconnect stFiveFailures).1) false).2
      = none := by
  decide

/-- C5 counterexample: two live records with timestamps 11 and 12,
strictly newer than the snapshot's latest timestamp 10, are appended
before the snapshot fetch resolves; applying the snapshot then leaves
the buffer holding only the snapshot record — the live records are
gone, contradicting the claimed merge that keeps them. -/
theorem snapshot_resolution_discards_live_records :
    liveRec1.timestamp > snapRec.timestamp ∧
    liveRec2.timestamp > snapRec.timestamp ∧
    (runMount (renderEnv initialState) initialState
        [MountEvent.wsFrame 5 (Frame.parsed (ServerMsg.realtime [liveRec1, liveRec2])),
         MountEvent.fetchResolved 7 [snapRec]]).logs
      = [{ snapRec with id := "initial-0-7" }] := by
  decide

/-- C5 amended: whenever the initial snapshot fetch resolves, the buffer
is replaced wholesale by the snapshot records (with freshly assigned
ids); any live records appended while the fetch was pending are
discarded, whatever their timestamps. -/
theorem snapshot_resolution_replaces_buffer (env : CapturedEnv)
    (st : ClientState) (evs : List MountEvent) (now : Nat)
    (snap : List Record) :
    (runMount env st (evs ++ [MountEvent.fetchResolved now snap])).logs
      = withInitialIds now snap := by
  simp [runMount, List.foldl_append, stepMount, applyInitialLogs]

/-- C6: the pause gate does not govern a live socket.  The installed
`ws.onmessage` reads the `isPaused` captured when the socket was
created: a socket created while unpaused keeps appending realtime
records after the user pauses (so they are present after resume,
refuting the discard claim), and conversely a socket created while
paused keeps discarding realtime records after the user resumes
(refuting the appended-after-resume claim). -/
theorem pause_toggle_does_not_gate_live_socket :
    (togglePause initialState).isPaused = true ∧
    (handleWebSocketMessage (renderEnv initialState) 3 (togglePause initialState)
        (Frame.parsed (ServerMsg.realtime [liveRec1]))).logs
      = withIds "rt-" 3 [liveRec1] ∧
    initialState.isPaused = false ∧
    handleWebSocketMessage (renderEnv (togglePause initialState)) 3 initialState
        (Frame.parsed (ServerMsg.realtime [liveRec1]))
      = initialState := by
  decide

/-- C8 counterexample: with the mount-created retry chain pending, a
filter change to level ERROR and search text applied while disconnected
updates the true filter state and sends nothing; when the automatic
retry then opens, the subscribe frame carries the filters captured at
mount (INFO, empty search), not the current filter state. -/
theorem automatic_reconnect_subscribes_stale_filters :
    (handleFilterChange initialState offlineNewFilters).filters
      = offlineNewFilters ∧
    (handleFilterChange initialState offlineNewFilters).sent = [] ∧
    (wsOnOpen (renderEnv initialState)
        (handleFilterChange initialState offlineNewFilters)).sent
      = [OutMsg.subscribe "INFO" ""] ∧
    OutMsg.subscribe "INFO" ""
      ≠ OutMsg.subscribe offlineNewFilters.level offlineNewFilters.search := by
  decide

/-- C8 amended: every open transition sends a subscribe frame carrying
the filter level and search captured by the connectWebSocket instance
that created the socket.  The initial connect and a manual reconnect run
the latest render's instance, so a filter change made while the
connection was not open is honoured by the next manual open without the
caller retrying; an automatic retry reuses the instance that scheduled
it and resubscribes with that instance's captured filters, which may be
stale. -/
theorem open_subscribe_uses_captured_filters (env : CapturedEnv)
    (st st2 : ClientState) (newFilters : Filters)
    (h : st2.isConnected = false) :
    ((wsOnOpen env st).sent
      = st.sent ++ [OutMsg.subscribe env.filters.level env.filters.search]) ∧
    ((handleFilterChange st2 newFilters).sent = st2.sent ∧
     (wsOnOpen (handleReconnect (handleFilterChange st2 newFilters)).2
        (handleReconnect (handleFilterChange st2 newFilters)).1).sent
       = st2.sent ++ [OutMsg.subscribe newFilters.level newFilters.search]) := by
  refine ⟨rfl, ?_, ?_⟩ <;>
    simp [handleFilterChange, handleReconnect, renderEnv, wsOnOpen, h]

/-- C8 witness: the captured-filters law instantiated at the
disconnected initial state with a filter change to ERROR and a search
text, followed by a manual reconnect. -/
theorem open_subscribe_captured_witness :
    initialState.isConnected = false ∧
    (((wsOnOpen (renderEnv initialState) initialState).sent
        = initialState.sent
            ++ [OutMsg.subscribe (renderEnv initialState).filters.level
                  (renderEnv initialState).filters.search]) ∧
     ((handleFilterChange initialState offlineNewFilters).sent
        = initialState.sent ∧
      (wsOnOpen (handleReconnect (handleFilterChange initialState offlineNewFilters)).2
         (handleReconnect (handleFilterChange initialState offlineNewFilters)).1).sent
        = initialState.sent
            ++ [OutMsg.subscribe offlineNewFilters.level offlineNewFilters.search])) :=
  ⟨rfl,
   open_subscribe_uses_captured_filters (renderEnv initialState) initialState
     initialState offlineNewFilters rfl⟩

/-- C9: an unparseable frame, and a parsed frame whose type tag is
unrecognized, leave the whole client state — buffer, filtered view,
connection flags, error, outgoing traffic — exactly unchanged,
whatever values the handling closure captured; the handler is total,
so no exception propagates. -/
theorem malformed_or_unknown_frame_leaves_state_unchanged (env : CapturedEnv)
    (now : Nat) (st : ClientState) :
    handleWebSocketMessage env now st Frame.malformed = st ∧
    ∀ t : String,
      handleWebSocketMessage env now st (Frame.parsed (ServerMsg.unknown t)) = st :=
  ⟨rfl, fun _ => rfl⟩

/-- C10: for any handling closure whose captured pause flag is set (the
gate that suppresses realtime ingestion), a frame of type data carrying
a log list still replaces the entire buffer with those records (with
fresh data ids) — the data branch consults no pause state at all —
whereas a realtime frame under the same closure is a no-op: the pause
gate suppresses only realtime frames. -/
theorem data_frame_replaces_buffer_while_paused (env : CapturedEnv)
    (now : Nat) (st : ClientState) (dataLogs rtLogs : List Record)
    (h : env.isPaused = true) :
    (handleWebSocketMessage env now st
        (Frame.parsed (ServerMsg.data (some dataLogs)))).logs
      = withIds "data-" now dataLogs ∧
    handleWebSocketMessage env now st (Frame.parsed (ServerMsg.realtime rtLogs))
      = st := by
  constructor
  · rfl
  · simp [handleWebSocketMessage, h]

/-- C10 witness: under the capture of a paused render, a data frame
replaces the buffer while a realtime frame changes nothing. -/
theorem data_while_paused_witness :
    (renderEnv (togglePause initialState)).isPaused = true ∧
    ((handleWebSocketMessage (renderEnv (togglePause initialState)) 4
        (togglePause initialState)
        (Frame.parsed (ServerMsg.data (some [snapRec])))).logs
      = withIds "data-" 4 [snapRec] ∧
     handleWebSocketMessage (renderEnv (togglePause initialState)) 4
        (togglePause initialState)
        (Frame.parsed (ServerMsg.realtime [liveRec2]))
      = togglePause initialState) :=
  ⟨rfl,
   data_frame_replaces_buffer_while_paused (renderEnv (togglePause initialState))
     4 (togglePause initialState) [snapRec] [liveRec2] rfl⟩

end TPM
